import Mathlib

/-!
Shallow embedding of src/gfal_sdn.c, the gfal2 SDN plugin: the per-batch
pair registry, the size-aggregation pass, the two notification-string
grammars (the " => " pair descriptions and the host:[ip]:port passive-mode
descriptors) and the event dispatcher.

Strings are List Char.  The external collaborators are oracle parameters:
gfal2_stat becomes a query oracle List Char -> Option Int (none = the stat
failed) and gfal2_parse_uri becomes List Char -> Option gfal2_uri (none =
no URI could be produced).  An execution that dereferences a NULL pointer
in the C code is modelled as none of the surrounding Option.
-/

/-- The literal separator " => " that sdn_create_pair splits on
(gfal_sdn.c line 29). -/
def sep : List Char := [' ', '=', '>', ' ']

/-- First-occurrence split: locate the first occurrence of d inside the
list and return the parts before and after it.  This is the single split
that g_strsplit performs when max_tokens = 2 (strstr finds the leftmost
occurrence of the delimiter). -/
def splitOnce (d : List Char) : List Char → Option (List Char × List Char)
  | [] => none
  | c :: rest =>
    if d.isPrefixOf (c :: rest) then some ([], (c :: rest).drop d.length)
    else
      match splitOnce d rest with
      | none => none
      | some (l, r) => some (c :: l, r)

/-- g_strsplit(description, " => ", 2) as called at gfal_sdn.c line 29:
at most two tokens, the second token being the whole remainder after the
first separator.  GLib special case: splitting the empty string yields the
empty vector, not a vector with one empty string. -/
def g_strsplit2 (s : List Char) : List (List Char) :=
  if s = [] then []
  else
    match splitOnce sep s with
    | none => [s]
    | some (l, r) => [l, r]

/-- pair_t (gfal_sdn.c lines 11-13).  The char* fields are NULL-able, so
they are Options. -/
structure pair_t where
  source : Option (List Char)
  destination : Option (List Char)
deriving DecidableEq

/-- sdn_create_pair (gfal_sdn.c lines 27-38): source := splitted[0],
destination := splitted[1].  g_strdup(NULL) is NULL, and reading the
token vector at or past its NULL terminator yields no string, hence the
Option lookups.  (For the empty description the vector holds zero tokens,
so even splitted[0] is NULL; reading splitted[1] is then even an
out-of-bounds heap read in the C code.) -/
def sdn_create_pair (description : List Char) : pair_t :=
  let splitted := g_strsplit2 description
  { source := splitted[0]?, destination := splitted[1]? }

/-- Session state sdn_t (gfal_sdn.c lines 15-19).  The opaque gfal2
context is omitted: the plugin only forwards it to gfal2_stat, which the
embedding abstracts into the query oracle.  total_size is off_t; the
64-bit wrap-around is not modelled (no claim involves sizes near 2^63). -/
structure sdn_t where
  pairs : List pair_t
  total_size : Int
deriving DecidableEq

/-- sdn_create_data (gfal_sdn.c lines 56-62): g_new0 zero-fills, and a
fresh GSequence is empty. -/
def sdn_create_data : sdn_t := { pairs := [], total_size := 0 }

/-- sdn_add_size (gfal_sdn.c lines 79-93): gfal2_stat the pair's source;
on failure log the source path and error and leave the running total
unchanged (the pair contributes 0); on success add st.st_size.  A NULL
source path makes the collaborator lookup fail, hence the bind. -/
def sdn_add_size (query : List Char → Option Int) (sdn : sdn_t) (p : pair_t) : sdn_t :=
  match p.source.bind query with
  | none => sdn
  | some sz => { sdn with total_size := sdn.total_size + sz }

/-- The aggregation pass inside sdn_notify_remote (gfal_sdn.c lines
112-114): data->total_size = 0 followed by
g_sequence_foreach(data->pairs, sdn_add_size, data). -/
def sdn_aggregate (query : List Char → Option Int) (data : sdn_t) : sdn_t :=
  data.pairs.foldl (sdn_add_size query) { data with total_size := 0 }

/-- The only field of gfal2_uri that the plugin reads is host
(gfal_sdn.c lines 116-117). -/
structure gfal2_uri where
  host : List Char
deriving DecidableEq

/-- The summary payload emitted at the end of sdn_notify_remote
(the log call and PLACEHOLDER of gfal_sdn.c lines 116-120): the
representative hosts of the first pair, the number of pairs and the
aggregated size. -/
structure notification_t where
  sourceHost : List Char
  destinationHost : List Char
  pairCount : Nat
  totalSize : Int
deriving DecidableEq

/-- sdn_notify_remote (gfal_sdn.c lines 99-121).

GLib's g_sequence_get_begin_iter never returns NULL: on an empty sequence
it returns the end iterator.  The NULL guard at line 105 therefore never
fires, g_sequence_get on the end iterator violates its precondition and
returns NULL, and pair->source dereferences a NULL pointer: the empty
registry is a crash, modelled as none.

gfal2_parse_uri yields no URI for a NULL string (in particular for an
absent destination) or an unparsable one, and the source->host /
destination->host reads at lines 116-117 then dereference NULL: also none.

Otherwise the total is recomputed from scratch and the payload emitted. -/
def sdn_notify_remote (query : List Char → Option Int)
    (parse_uri : List Char → Option gfal2_uri) (data : sdn_t) :
    Option (sdn_t × notification_t) :=
  match data.pairs with
  | [] => none
  | p :: _ =>
    match p.source.bind parse_uri, p.destination.bind parse_uri with
    | some source, some destination =>
      let data2 := sdn_aggregate query data
      some (data2,
        { sourceHost := source.host, destinationHost := destination.host,
          pairCount := data2.pairs.length, totalSize := data2.total_size })
    | _, _ => none

/-- The character class [a-zA-Z0-9._-] of the host capture in the regex at
gfal_sdn.c line 131. -/
def isHostChar (c : Char) : Bool :=
  c.isAlpha || c.isDigit || c == '.' || c == '_' || c == '-'

/-- The character class [0-9a-f.:] of the ip capture in the regex at
gfal_sdn.c line 131. -/
def isIpChar (c : Char) : Bool :=
  c.isDigit || (decide ('a' ≤ c) && decide (c ≤ 'f')) || c == '.' || c == ':'

/-- The endpoint extracted by sdn_dest_pasv: the host and ip buffers and
the atoi'd port. -/
structure endpoint_t where
  host : List Char
  ip : List Char
  port : Int
deriving DecidableEq

/-- atoi(description + matches[3].rm_so) (gfal_sdn.c line 157): the port
capture starts with a digit, so atoi's whitespace/sign handling is not
exercised; it reads the maximal digit run.  The undefined behaviour of
atoi past INT_MAX is not modelled; theorems about the port value keep it
below 2^31. -/
def atoiVal (l : List Char) : Int :=
  (l.takeWhile Char.isDigit).foldl (fun a c => a * 10 + ((c.toNat : Int) - 48)) 0

/-- One attempt of the POSIX regex
([a-zA-Z0-9._-]+):\[([0-9a-f.:]+)\]:([0-9]+) anchored at the start of s.
The separators ':' '[' ']' lie outside both character classes, so every
capture is forced to be the maximal class run: greedy scanning with no
backtracking coincides with POSIX leftmost-longest matching for this
pattern. -/
def pasvMatchAt (s : List Char) : Option (List Char × List Char × List Char) :=
  if s.takeWhile isHostChar = [] then none
  else
    match s.dropWhile isHostChar with
    | ':' :: '[' :: rest1 =>
      if rest1.takeWhile isIpChar = [] then none
      else
        match rest1.dropWhile isIpChar with
        | ']' :: ':' :: rest2 =>
          if rest2.takeWhile Char.isDigit = [] then none
          else some (s.takeWhile isHostChar, rest1.takeWhile isIpChar,
                     rest2.takeWhile Char.isDigit)
        | _ => none
    | _ => none

/-- regexec (gfal_sdn.c line 135) is unanchored: the leftmost start
position admitting a match wins. -/
def pasvSearch : List Char → Option (List Char × List Char × List Char)
  | [] => none
  | c :: rest =>
    match pasvMatchAt (c :: rest) with
    | some r => some r
    | none => pasvSearch rest

/-- sdn_dest_pasv (gfal_sdn.c lines 128-161): on REG_NOMATCH log at
critical level and return without emitting anything (none); otherwise
g_strlcpy the host capture into a 256-byte buffer and the ip capture into
a 64-byte buffer, truncating to 255 resp. 63 characters, and atoi the
port capture. -/
def sdn_dest_pasv (description : List Char) : Option endpoint_t :=
  match pasvSearch description with
  | none => none
  | some (h, i, p) => some { host := h.take 255, ip := i.take 63, port := atoiVal p }

/-- The stages distinguished by sdn_event_listener (gfal_sdn.c lines
166-186): GFAL_EVENT_LIST_ENTER / LIST_ITEM / LIST_EXIT, the PASV quark,
and every other stage (which the else-if chain ignores). -/
inductive event_stage where
  | list_enter
  | list_item
  | list_exit
  | pasv
  | other
deriving DecidableEq

/-- gfalt_event_t as consumed by the listener: a stage tag plus a
description string. -/
structure gfalt_event_t where
  stage : event_stage
  description : List Char
deriving DecidableEq

/-- What one listener invocation produces besides the new session state:
the summary payloads (gfal_sdn.c lines 116-120) and the parsed
passive-mode endpoints (gfal_sdn.c line 160). -/
structure listener_out_t where
  data : sdn_t
  notifications : List notification_t
  endpoints : List endpoint_t
deriving DecidableEq

/-- sdn_event_listener (gfal_sdn.c lines 166-186).  LIST_ENTER removes
the whole range begin..end (clears the registry, total_size untouched);
LIST_ITEM appends the parsed pair; LIST_EXIT runs sdn_notify_remote;
PASV runs sdn_dest_pasv; anything else is a no-op.  none = the invocation
crashes. -/
def sdn_event_listener (query : List Char → Option Int)
    (parse_uri : List Char → Option gfal2_uri)
    (e : gfalt_event_t) (data : sdn_t) : Option listener_out_t :=
  match e.stage with
  | .list_enter =>
    some { data := { data with pairs := [] }, notifications := [], endpoints := [] }
  | .list_item =>
    some { data := { data with pairs := data.pairs ++ [sdn_create_pair e.description] },
           notifications := [], endpoints := [] }
  | .list_exit =>
    match sdn_notify_remote query parse_uri data with
    | none => none
    | some (d2, n) => some { data := d2, notifications := [n], endpoints := [] }
  | .pasv =>
    match sdn_dest_pasv e.description with
    | none => some { data := data, notifications := [], endpoints := [] }
    | some ep => some { data := data, notifications := [], endpoints := [ep] }
  | .other => some { data := data, notifications := [], endpoints := [] }

/-- Deliver a sequence of events to one listener, in emission order,
accumulating the emitted payloads; a crash in any invocation aborts the
run. -/
def sdn_run (query : List Char → Option Int)
    (parse_uri : List Char → Option gfal2_uri) :
    List gfalt_event_t → sdn_t → Option listener_out_t
  | [], data => some { data := data, notifications := [], endpoints := [] }
  | e :: es, data =>
    match sdn_event_listener query parse_uri e data with
    | none => none
    | some o1 =>
      match sdn_run query parse_uri es o1.data with
      | none => none
      | some o2 =>
        some { data := o2.data,
               notifications := o1.notifications ++ o2.notifications,
               endpoints := o1.endpoints ++ o2.endpoints }

/-- Following the spec's words (section 4.4): a description of the exact
grammar form host:[ip]:port with nonempty class-conforming components. -/
def spec_exact_grammar (s : List Char) : Prop :=
  ∃ h i p : List Char, h ≠ [] ∧ i ≠ [] ∧ p ≠ [] ∧
    (∀ c ∈ h, isHostChar c = true) ∧ (∀ c ∈ i, isIpChar c = true) ∧
    (∀ c ∈ p, c.isDigit = true) ∧
    s = h ++ [':', '['] ++ i ++ [']', ':'] ++ p

/-- An occurrence of the grammar anywhere inside the description: this is
what the unanchored regexec actually looks for. -/
def grammar_occurs (s : List Char) : Prop :=
  ∃ pre h i p post : List Char, h ≠ [] ∧ i ≠ [] ∧ p ≠ [] ∧
    (∀ c ∈ h, isHostChar c = true) ∧ (∀ c ∈ i, isIpChar c = true) ∧
    (∀ c ∈ p, c.isDigit = true) ∧
    s = pre ++ h ++ [':', '['] ++ i ++ [']', ':'] ++ p ++ post

/-- A host-extraction oracle that succeeds on every string, making the
whole input the host: used to instantiate concrete scenarios. -/
def uri_of : List Char → Option gfal2_uri := fun s => some { host := s }

/-- A metadata-query oracle knowing only that the path "a" has size 5:
used in concrete scenarios. -/
def q_a5 : List Char → Option Int := fun s => if s = ['a'] then some 5 else none

lemma add_size_pairs (query : List Char → Option Int) (s : sdn_t) (p : pair_t) :
    (sdn_add_size query s p).pairs = s.pairs := by
  unfold sdn_add_size
  cases p.source.bind query <;> rfl

lemma add_size_total (query : List Char → Option Int) (s : sdn_t) (p : pair_t) :
    (sdn_add_size query s p).total_size
      = s.total_size + ((p.source.bind query).getD 0) := by
  unfold sdn_add_size
  cases h : p.source.bind query <;> simp [h]

lemma foldl_add_size_pairs (query : List Char → Option Int) :
    ∀ (l : List pair_t) (s : sdn_t), (l.foldl (sdn_add_size query) s).pairs = s.pairs := by
  intro l
  induction l with
  | nil => intro s; rfl
  | cons p l ih =>
    intro s
    rw [List.foldl_cons, ih, add_size_pairs]

lemma foldl_add_size_total (query : List Char → Option Int) :
    ∀ (l : List pair_t) (s : sdn_t),
      (l.foldl (sdn_add_size query) s).total_size
        = s.total_size + (l.filterMap (fun p => p.source.bind query)).sum := by
  intro l
  induction l with
  | nil => intro s; simp
  | cons p l ih =>
    intro s
    rw [List.foldl_cons, ih, add_size_total]
    cases h : p.source.bind query with
    | none => simp [List.filterMap_cons, h]
    | some v =>
      simp [List.filterMap_cons, h]
      ring

lemma filterMap_length_add_filter_none (query : List Char → Option Int) :
    ∀ l : List pair_t,
      (l.filterMap (fun p => p.source.bind query)).length
          + (l.filter (fun p => (p.source.bind query).isNone)).length
        = l.length := by
  intro l
  induction l with
  | nil => rfl
  | cons p l ih =>
    cases h : p.source.bind query <;>
      simp [List.filterMap_cons, List.filter_cons, h, ← ih] <;> omega

/-- C1: the aggregation pass over a registry of n pairs with k failing
lookups returns the sum of the n-k successful sizes: the running total
starts at 0 (the prior total_size is discarded), each failed lookup
contributes exactly 0 while every successful size is kept (the filterMap
keeps exactly the successful lookups, and their count plus the failure
count is n), the pass is a total function (it never throws or aborts),
and the sum is written back into the session's total_size while the
registry itself is untouched. -/
theorem aggregate_sums_successful_sizes (query : List Char → Option Int) (data : sdn_t) :
    (sdn_aggregate query data).total_size
        = (data.pairs.filterMap (fun p => p.source.bind query)).sum
      ∧ (sdn_aggregate query data).pairs = data.pairs
      ∧ (data.pairs.filterMap (fun p => p.source.bind query)).length
            + (data.pairs.filter (fun p => (p.source.bind query).isNone)).length
          = data.pairs.length := by
  refine ⟨?_, ?_, filterMap_length_add_filter_none query data.pairs⟩
  · unfold sdn_aggregate
    rw [foldl_add_size_total]
    simp
  · unfold sdn_aggregate
    rw [foldl_add_size_pairs]

/-- C3: delivering a BatchExit (LIST_EXIT) event while the registry is
empty does not take the graceful path the spec requires.  The begin
iterator of an empty GSequence is the (non-NULL) end iterator, so the
NULL guard at gfal_sdn.c line 105 never fires; g_sequence_get then yields
NULL and pair->source is a NULL-pointer dereference: the invocation
crashes (none) instead of skipping the host-derived fields. -/
theorem batch_exit_on_empty_registry_crashes :
    sdn_event_listener (fun _ => some 1) uri_of
        { stage := .list_exit, description := [] } sdn_create_data = none := rfl

/-- C10: a batch whose first pair has an absent destination (description
"fileA" without the separator) crashes on BatchExit: gfal2_parse_uri is
handed the NULL destination, produces no URI, and destination->host at
gfal_sdn.c line 117 dereferences NULL — even with a host-extraction
collaborator that succeeds on every string and a metadata query that
always succeeds. -/
theorem absent_destination_crashes :
    sdn_run (fun _ => some 1) uri_of
        [ { stage := .list_enter, description := [] },
          { stage := .list_item, description := ['f', 'i', 'l', 'e', 'A'] },
          { stage := .list_exit, description := [] } ]
        sdn_create_data = none := by decide

/-- C8 (counterexample): after the run item "a => b", BatchExit,
BatchEnter — with the lookup of "a" returning 5 — the registry is empty
but total_size is still 5, because LIST_ENTER clears the pair sequence
without touching total_size.  The sum of successfully queried sizes over
the (empty) current pairs is 0, so the claimed invariant fails at the
point immediately after BatchEnter. -/
theorem total_size_stale_after_batch_enter :
    (sdn_run q_a5 uri_of
        [ { stage := .list_item, description := ['a', ' ', '=', '>', ' ', 'b'] },
          { stage := .list_exit, description := [] },
          { stage := .list_enter, description := [] } ]
        sdn_create_data).map (fun o => (o.data.pairs, o.data.total_size))
      = some ([], 5)
    ∧ (([] : List pair_t).filterMap (fun p => p.source.bind q_a5)).sum = 0
    ∧ (5 : Int) ≠ 0 := by
  refine ⟨by decide, rfl, by decide⟩

/-- C8 (amended): the invariant holds at every point immediately after a
completed aggregation pass: whenever sdn_notify_remote returns (rather
than crashing), the new total_size is exactly the sum of the successfully
queried source sizes of the pairs then in the registry, and the registry
contents are unchanged. -/
theorem total_size_correct_after_aggregation_pass
    (query : List Char → Option Int) (parse_uri : List Char → Option gfal2_uri)
    (data d2 : sdn_t) (n : notification_t)
    (h : sdn_notify_remote query parse_uri data = some (d2, n)) :
    d2.total_size = (d2.pairs.filterMap (fun p => p.source.bind query)).sum
      ∧ d2.pairs = data.pairs := by
  unfold sdn_notify_remote at h
  split at h
  · exact absurd h (by simp)
  · split at h
    · simp only [Option.some.injEq, Prod.mk.injEq] at h
      obtain ⟨h1, -⟩ := h
      subst h1
      have hpairs : (sdn_aggregate query data).pairs = data.pairs := by
        unfold sdn_aggregate; rw [foldl_add_size_pairs]
      refine ⟨?_, hpairs⟩
      rw [hpairs]
      unfold sdn_aggregate
      rw [foldl_add_size_total]
      simp
    · exact absurd h (by simp)

/-- Witness for the amended C8 invariant: a one-pair registry with a
stale total of 7; the pass recomputes 5. -/
theorem total_size_correct_after_aggregation_pass_witness :
    (5 : Int)
        = (([{ source := some ['a'], destination := some ['b'] }] :
              List pair_t).filterMap (fun p => p.source.bind q_a5)).sum
      ∧ ([{ source := some ['a'], destination := some ['b'] }] : List pair_t)
        = [{ source := some ['a'], destination := some ['b'] }] := by
  have h := total_size_correct_after_aggregation_pass q_a5 uri_of
      { pairs := [{ source := some ['a'], destination := some ['b'] }], total_size := 7 }
      { pairs := [{ source := some ['a'], destination := some ['b'] }], total_size := 5 }
      { sourceHost := ['a'], destinationHost := ['b'], pairCount := 1, totalSize := 5 }
      (by decide)
  exact h

lemma splitOnce_none_of_no_infix (s : List Char) (hs : ¬ sep <:+: s) :
    splitOnce sep s = none := by
  induction s with
  | nil => rfl
  | cons c rest ih =>
    have h1 : sep.isPrefixOf (c :: rest) = false := by
      cases hb : sep.isPrefixOf (c :: rest) with
      | false => rfl
      | true =>
        exact absurd (List.IsPrefix.isInfix (List.isPrefixOf_iff_prefix.mp hb)) hs
    have h2 : ¬ sep <:+: rest := fun hinf => hs (List.infix_cons hinf)
    simp [splitOnce, h1, ih h2]

lemma no_early_match (S D : List Char) (h1 : ¬ sep <:+: S)
    (h2 : ¬ [' ', '=', '>'] <:+ S)
    (u v : List Char) (hS : S = u ++ v) (hv : v ≠ []) :
    sep.isPrefixOf (v ++ sep ++ D) = false := by
  cases hb : sep.isPrefixOf (v ++ sep ++ D) with
  | false => rfl
  | true =>
    exfalso
    obtain ⟨t, ht⟩ := List.isPrefixOf_iff_prefix.mp hb
    simp only [sep, List.cons_append, List.nil_append, List.append_assoc] at ht
    rcases v with (_ | ⟨a, (_ | ⟨b, (_ | ⟨c, (_ | ⟨d, v'⟩)⟩)⟩)⟩)
    · exact hv rfl
    · injection ht with ha ht2
      injection ht2 with hbad _
      exact absurd hbad (by decide)
    · injection ht with ha ht2
      injection ht2 with hb2 ht3
      injection ht3 with hbad _
      exact absurd hbad (by decide)
    · injection ht with ha ht2
      injection ht2 with hb2 ht3
      injection ht3 with hc ht4
      subst ha; subst hb2; subst hc
      exact h2 ⟨u, hS.symm⟩
    · injection ht with ha ht2
      injection ht2 with hb2 ht3
      injection ht3 with hc ht4
      injection ht4 with hd ht5
      subst ha; subst hb2; subst hc; subst hd
      exact h1 ⟨u, v', by rw [hS]; simp [sep]⟩

lemma splitOnce_boundary (D : List Char) :
    ∀ S : List Char,
      (∀ u v, S = u ++ v → v ≠ [] → sep.isPrefixOf (v ++ sep ++ D) = false) →
      splitOnce sep (S ++ sep ++ D) = some (S, D) := by
  intro S
  induction S with
  | nil =>
    intro _
    show splitOnce sep (sep ++ D) = some ([], D)
    have hcons : sep ++ D = ' ' :: '=' :: '>' :: ' ' :: D := rfl
    rw [hcons]
    simp only [splitOnce]
    rw [if_pos (List.isPrefixOf_iff_prefix.mpr ⟨D, hcons⟩)]
    simp [sep]
  | cons c S' ih =>
    intro hno
    have hfalse : sep.isPrefixOf ((c :: S') ++ sep ++ D) = false :=
      hno [] (c :: S') rfl (by simp)
    simp only [List.cons_append, List.append_assoc] at hfalse
    have hfalse2 : ¬ (sep <+: c :: (S' ++ (sep ++ D))) := by
      rw [← List.isPrefixOf_iff_prefix]
      simp [hfalse]
    have hrec := ih (fun u v huv hv => hno (c :: u) v (by rw [huv]; rfl) hv)
    simp only [List.append_assoc] at hrec
    simp only [List.cons_append, List.append_assoc, splitOnce, List.isPrefixOf_iff_prefix,
      List.append_eq]
    rw [if_neg hfalse2, hrec]

lemma create_pair_separated (S D : List Char) (h1 : ¬ sep <:+: S)
    (h2 : ¬ [' ', '=', '>'] <:+ S) :
    sdn_create_pair (S ++ sep ++ D) = { source := some S, destination := some D } := by
  have hs := splitOnce_boundary D S (no_early_match S D h1 h2)
  have hne : S ++ sep ++ D ≠ [] := by simp [sep]
  unfold sdn_create_pair g_strsplit2
  rw [if_neg hne, hs]
  rfl

/-- C6 (amended): for strings S and D each containing no occurrence of
the separator " => ", and with S moreover not ending in " =>" (otherwise
the concatenation itself creates an occurrence of the separator that
starts inside S, see the counterexample), sdn_create_pair on S ++ " => "
++ D splits on the first occurrence of the literal separator, producing
exactly the two parts S and D. -/
theorem parse_pair_splits_on_first_separator (S D : List Char)
    (hS : ¬ sep <:+: S) (_hD : ¬ sep <:+: D) (hS2 : ¬ [' ', '=', '>'] <:+ S) :
    sdn_create_pair (S ++ sep ++ D) = { source := some S, destination := some D } :=
  create_pair_separated S D hS hS2

/-- Witness for the amended C6 at S = "fileA", D = "fileB". -/
theorem parse_pair_splits_on_first_separator_witness :
    sdn_create_pair ("fileA".toList ++ sep ++ "fileB".toList)
      = { source := some "fileA".toList, destination := some "fileB".toList } :=
  parse_pair_splits_on_first_separator _ _ (by decide) (by decide) (by decide)

/-- C6 (counterexample): S = "a =>" and D = "b" each contain no
occurrence of " => ", yet parsing "a => => b" does not return (S, D):
the first occurrence of the separator in the concatenation starts at
position 1, inside S, so the source is "a" and the destination is
"=> b". -/
theorem parse_pair_straddling_counterexample :
    ¬ sep <:+: ['a', ' ', '=', '>'] ∧ ¬ sep <:+: ['b'] ∧
    sdn_create_pair (['a', ' ', '=', '>'] ++ sep ++ ['b'])
        = { source := some ['a'], destination := some ['=', '>', ' ', 'b'] } ∧
    sdn_create_pair (['a', ' ', '=', '>'] ++ sep ++ ['b'])
        ≠ { source := some ['a', ' ', '=', '>'], destination := some ['b'] } := by
  refine ⟨by decide, by decide, by decide, by decide⟩

/-- C7 (amended): for every NONEMPTY string with no " => " substring,
sdn_create_pair does not fail: the source is the whole input, the
destination is absent, and a BatchItem event still records the degenerate
pair by appending it to the registry (total_size untouched).  (The claim
fails for the empty string, see the counterexample.) -/
theorem parse_pair_without_separator (s : List Char)
    (q : List Char → Option Int) (pu : List Char → Option gfal2_uri) (d : sdn_t)
    (hne : s ≠ []) (hs : ¬ sep <:+: s) :
    sdn_create_pair s = { source := some s, destination := none } ∧
    sdn_event_listener q pu { stage := .list_item, description := s } d
      = some { data := { pairs := d.pairs ++ [{ source := some s, destination := none }],
                         total_size := d.total_size },
               notifications := [], endpoints := [] } := by
  have hsp := splitOnce_none_of_no_infix s hs
  have h1 : sdn_create_pair s = { source := some s, destination := none } := by
    unfold sdn_create_pair g_strsplit2
    rw [if_neg hne, hsp]
    rfl
  refine ⟨h1, ?_⟩
  simp [sdn_event_listener, h1]

/-- Witness for the amended C7 at "fileA" appended to a fresh session. -/
theorem parse_pair_without_separator_witness :
    sdn_create_pair "fileA".toList
        = { source := some "fileA".toList, destination := none } ∧
    sdn_event_listener q_a5 uri_of
        { stage := .list_item, description := "fileA".toList } sdn_create_data
      = some { data := { pairs := [{ source := some "fileA".toList, destination := none }],
                         total_size := 0 },
               notifications := [], endpoints := [] } :=
  parse_pair_without_separator _ q_a5 uri_of sdn_create_data (by decide) (by decide)

/-- C7 (counterexample): the empty string contains no " => " substring,
but its pair does not carry the whole input as source: GLib's g_strsplit
of "" returns the empty token vector, so both fields are NULL (and the C
code even reads past the one-slot vector for the destination). -/
theorem parse_pair_empty_string_counterexample :
    ¬ sep <:+: ([] : List Char) ∧
    sdn_create_pair [] ≠ { source := some [], destination := none } ∧
    sdn_create_pair [] = { source := none, destination := none } := by
  refine ⟨by decide, by decide, rfl⟩

lemma takeWhile_split {P : Char → Bool} (xs : List Char) (y : Char) (ys : List Char)
    (hx : ∀ x ∈ xs, P x = true) (hy : P y = false) :
    (xs ++ y :: ys).takeWhile P = xs ∧ (xs ++ y :: ys).dropWhile P = y :: ys := by
  constructor
  · rw [List.takeWhile_append_of_pos hx, List.takeWhile_cons_of_neg (by simp [hy])]
    simp
  · rw [List.dropWhile_append_of_pos hx, List.dropWhile_cons_of_neg (by simp [hy])]

lemma pasvMatchAt_exact (h i p : List Char) (hh : h ≠ []) (hi : i ≠ []) (hp : p ≠ [])
    (hch : ∀ c ∈ h, isHostChar c = true) (hci : ∀ c ∈ i, isIpChar c = true)
    (hcp : ∀ c ∈ p, c.isDigit = true) :
    pasvMatchAt (h ++ [':', '['] ++ i ++ [']', ':'] ++ p) = some (h, i, p) := by
  have e0 : h ++ [':', '['] ++ i ++ [']', ':'] ++ p
      = h ++ ':' :: '[' :: (i ++ ']' :: ':' :: p) := by simp
  obtain ⟨eh1, eh2⟩ :=
    takeWhile_split (P := isHostChar) h ':' ('[' :: (i ++ ']' :: ':' :: p)) hch (by decide)
  obtain ⟨ei1, ei2⟩ :=
    takeWhile_split (P := isIpChar) i ']' (':' :: p) hci (by decide)
  have ep1 : p.takeWhile Char.isDigit = p := List.takeWhile_eq_self_iff.mpr hcp
  rw [e0]
  unfold pasvMatchAt
  rw [eh1, eh2]
  rw [if_neg (by simpa using hh)]
  show (if (i ++ ']' :: ':' :: p).takeWhile isIpChar = [] then none
        else match (i ++ ']' :: ':' :: p).dropWhile isIpChar with
          | ']' :: ':' :: rest2 =>
            if rest2.takeWhile Char.isDigit = [] then none
            else some (h, (i ++ ']' :: ':' :: p).takeWhile isIpChar,
                       rest2.takeWhile Char.isDigit)
          | _ => none) = some (h, i, p)
  rw [ei1, ei2]
  rw [if_neg (by simpa using hi)]
  show (if p.takeWhile Char.isDigit = [] then none
        else some (h, i, p.takeWhile Char.isDigit)) = some (h, i, p)
  rw [ep1]
  rw [if_neg (by simpa using hp)]

lemma pasvSearch_exact (h i p : List Char) (hh : h ≠ []) (hi : i ≠ []) (hp : p ≠ [])
    (hch : ∀ c ∈ h, isHostChar c = true) (hci : ∀ c ∈ i, isIpChar c = true)
    (hcp : ∀ c ∈ p, c.isDigit = true) :
    pasvSearch (h ++ [':', '['] ++ i ++ [']', ':'] ++ p) = some (h, i, p) := by
  have hm := pasvMatchAt_exact h i p hh hi hp hch hci hcp
  cases h with
  | nil => exact absurd rfl hh
  | cons c h' =>
    simp only [List.cons_append] at hm ⊢
    unfold pasvSearch
    rw [hm]

lemma dest_pasv_exact_form (h i p : List Char) (hh : h ≠ []) (hi : i ≠ []) (hp : p ≠ [])
    (hch : ∀ c ∈ h, isHostChar c = true) (hci : ∀ c ∈ i, isIpChar c = true)
    (hcp : ∀ c ∈ p, c.isDigit = true) :
    sdn_dest_pasv (h ++ [':', '['] ++ i ++ [']', ':'] ++ p)
      = some { host := h.take 255, ip := i.take 63, port := atoiVal p } := by
  unfold sdn_dest_pasv
  rw [pasvSearch_exact h i p hh hi hp hch hci hcp]

lemma pasvMatchAt_sound (s h i p : List Char)
    (hm : pasvMatchAt s = some (h, i, p)) :
    h ≠ [] ∧ i ≠ [] ∧ p ≠ [] ∧ (∀ c ∈ h, isHostChar c = true) ∧
    (∀ c ∈ i, isIpChar c = true) ∧ (∀ c ∈ p, c.isDigit = true) ∧
    ∃ post, s = h ++ [':', '['] ++ i ++ [']', ':'] ++ p ++ post := by
  unfold pasvMatchAt at hm
  by_cases h0 : s.takeWhile isHostChar = []
  · rw [if_pos h0] at hm; exact absurd hm (by simp)
  · rw [if_neg h0] at hm
    split at hm
    · rename_i rest1 heq1
      by_cases h1 : rest1.takeWhile isIpChar = []
      · rw [if_pos h1] at hm; exact absurd hm (by simp)
      · rw [if_neg h1] at hm
        split at hm
        · rename_i rest2 heq2
          by_cases h2 : rest2.takeWhile Char.isDigit = []
          · rw [if_pos h2] at hm; exact absurd hm (by simp)
          · rw [if_neg h2] at hm
            simp only [Option.some.injEq, Prod.mk.injEq] at hm
            obtain ⟨e1, e2, e3⟩ := hm
            subst e1; subst e2; subst e3
            refine ⟨h0, h1, h2, fun c hc => List.mem_takeWhile_imp hc,
                    fun c hc => List.mem_takeWhile_imp hc,
                    fun c hc => List.mem_takeWhile_imp hc,
                    rest2.dropWhile Char.isDigit, ?_⟩
            have d0 : s = s.takeWhile isHostChar ++ s.dropWhile isHostChar :=
              (List.takeWhile_append_dropWhile _ _).symm
            have d1 : rest1 = rest1.takeWhile isIpChar ++ rest1.dropWhile isIpChar :=
              (List.takeWhile_append_dropWhile _ _).symm
            have d2 : rest2 = rest2.takeWhile Char.isDigit ++ rest2.dropWhile Char.isDigit :=
              (List.takeWhile_append_dropWhile _ _).symm
            calc s = s.takeWhile isHostChar ++ s.dropWhile isHostChar := d0
              _ = s.takeWhile isHostChar ++ (':' :: '[' :: rest1) := by rw [heq1]
              _ = s.takeWhile isHostChar ++ (':' :: '[' ::
                    (rest1.takeWhile isIpChar ++ (']' :: ':' :: rest2))) := by
                    rw [← heq2, ← d1]
              _ = s.takeWhile isHostChar ++ (':' :: '[' ::
                    (rest1.takeWhile isIpChar ++ (']' :: ':' ::
                      (rest2.takeWhile Char.isDigit ++ rest2.dropWhile Char.isDigit)))) := by
                    rw [← d2]
              _ = s.takeWhile isHostChar ++ [':', '['] ++ rest1.takeWhile isIpChar
                    ++ [']', ':'] ++ rest2.takeWhile Char.isDigit
                    ++ rest2.dropWhile Char.isDigit := by simp
        · exact absurd hm (by simp)
    · exact absurd hm (by simp)

lemma pasvSearch_sound : ∀ (s h i p : List Char),
    pasvSearch s = some (h, i, p) → grammar_occurs s := by
  intro s
  induction s with
  | nil => intro h i p hm; exact absurd hm (by simp [pasvSearch])
  | cons c rest ih =>
    intro h i p hm
    unfold pasvSearch at hm
    cases hma : pasvMatchAt (c :: rest) with
    | some r =>
      rw [hma] at hm
      simp only [Option.some.injEq] at hm
      subst hm
      obtain ⟨hh, hi2, hp2, hch, hci, hcp, post, hs⟩ :=
        pasvMatchAt_sound (c :: rest) h i p hma
      exact ⟨[], h, i, p, post, hh, hi2, hp2, hch, hci, hcp, by simpa using hs⟩
    | none =>
      rw [hma] at hm
      obtain ⟨pre, h', i', p', post, hh, hi, hp, hch, hci, hcp, hs⟩ := ih h i p hm
      exact ⟨c :: pre, h', i', p', post, hh, hi, hp, hch, hci, hcp, by simp [hs]⟩

lemma grammar_occurs_mem (s : List Char) (hocc : grammar_occurs s) : '[' ∈ s := by
  obtain ⟨pre, h, i, p, post, -, -, -, -, -, -, hs⟩ := hocc
  subst hs
  simp

/-- C5 (amended): for every description containing no occurrence of the
host:[ip]:port grammar as a substring, sdn_dest_pasv fails cleanly: the
parse error is logged at critical severity and no endpoint — not even a
partial one — is emitted, and no further action is taken for the event
(the dispatcher's pasv branch returns with no endpoint output).  (As the
counterexample shows, merely violating the exact grammar is not enough,
because regexec is unanchored.) -/
theorem parse_endpoint_fails_without_grammar_occurrence (s : List Char)
    (hno : ¬ grammar_occurs s) :
    sdn_dest_pasv s = none := by
  unfold sdn_dest_pasv
  cases hm : pasvSearch s with
  | none => rfl
  | some r => exact absurd (pasvSearch_sound s r.1 r.2.1 r.2.2 (by rw [hm])) hno

/-- Witness for the amended C5 on the spec's own example input. -/
theorem parse_endpoint_fails_without_grammar_occurrence_witness :
    sdn_dest_pasv "not-a-valid-descriptor".toList = none :=
  parse_endpoint_fails_without_grammar_occurrence _
    (fun hocc => absurd (grammar_occurs_mem _ hocc) (by decide))

/-- C5 (counterexample): "!a:[0]:1" does not match the grammar
host:[ip]:port ('!' is not a host-class character, and any exact-form
decomposition would have to start with a host character), yet
sdn_dest_pasv succeeds, because the unanchored regexec finds the embedded
match "a:[0]:1" starting at position 1. -/
theorem parse_endpoint_unanchored_counterexample :
    ¬ spec_exact_grammar ['!', 'a', ':', '[', '0', ']', ':', '1'] ∧
    sdn_dest_pasv ['!', 'a', ':', '[', '0', ']', ':', '1']
      = some { host := ['a'], ip := ['0'], port := 1 } := by
  constructor
  · rintro ⟨h, i, p, hh, -, -, hch, -, -, heq⟩
    cases h with
    | nil => exact hh rfl
    | cons c h' =>
      rw [List.cons_append] at heq
      injection heq with h1 _
      have hc := hch c (by simp)
      rw [← h1] at hc
      exact absurd hc (by decide)
  · decide

/-- C4 (amended): for every description of the exact form
host:[ip]:port with class-conforming nonempty components, sdn_dest_pasv
succeeds and returns the three components with the port parsed as a
base-10 integer, PROVIDED the host fits its 256-byte buffer (at most 255
characters) and the ip its 64-byte buffer (at most 63 characters) — the
counterexample shows longer components are truncated — and the port value
stays below 2^31 (beyond which atoi is undefined). -/
theorem parse_endpoint_exact_form (h i p : List Char)
    (hh : h ≠ []) (hi : i ≠ []) (hp : p ≠ [])
    (hch : ∀ c ∈ h, isHostChar c = true) (hci : ∀ c ∈ i, isIpChar c = true)
    (hcp : ∀ c ∈ p, c.isDigit = true)
    (hlh : h.length ≤ 255) (hli : i.length ≤ 63)
    (_hport : atoiVal p < 2147483648) :
    sdn_dest_pasv (h ++ [':', '['] ++ i ++ [']', ':'] ++ p)
      = some { host := h, ip := i, port := atoiVal p } := by
  rw [dest_pasv_exact_form h i p hh hi hp hch hci hcp,
      List.take_of_length_le hlh, List.take_of_length_le hli]

/-- Witness for the amended C4 on the spec's bracketed-IPv6 example
"ftpnode1:[2001:db8::1]:20000". -/
theorem parse_endpoint_exact_form_witness :
    sdn_dest_pasv ("ftpnode1".toList ++ [':', '['] ++ "2001:db8::1".toList
        ++ [']', ':'] ++ "20000".toList)
      = some { host := "ftpnode1".toList, ip := "2001:db8::1".toList, port := 20000 } := by
  have h := parse_endpoint_exact_form "ftpnode1".toList "2001:db8::1".toList "20000".toList
    (by decide) (by decide) (by decide) (by decide) (by decide) (by decide)
    (by decide) (by decide) (by decide)
  have e : atoiVal "20000".toList = 20000 := by decide
  rw [e] at h
  exact h

set_option maxRecDepth 4096 in
/-- C4 (counterexample): a description of the exact grammar form whose
host component has 256 characters parses successfully, but the returned
host is the 255-character truncation, not the host component itself. -/
theorem parse_endpoint_truncation_counterexample :
    spec_exact_grammar
        (List.replicate 256 'a' ++ [':', '['] ++ ['1'] ++ [']', ':'] ++ ['2']) ∧
    sdn_dest_pasv (List.replicate 256 'a' ++ [':', '['] ++ ['1'] ++ [']', ':'] ++ ['2'])
      = some { host := List.replicate 255 'a', ip := ['1'], port := 2 } ∧
    List.replicate 255 'a' ≠ List.replicate 256 'a' := by
  have hch : ∀ c ∈ List.replicate 256 'a', isHostChar c = true := by
    intro c hc
    rw [List.eq_of_mem_replicate hc]
    decide
  have hne : List.replicate 256 'a' ≠ [] :=
    List.ne_nil_of_length_pos (by rw [List.length_replicate]; omega)
  refine ⟨⟨List.replicate 256 'a', ['1'], ['2'], hne, by decide, by decide, hch,
      by decide, by decide, rfl⟩, ?_, ?_⟩
  · rw [dest_pasv_exact_form _ _ _ hne (by decide) (by decide) hch (by decide) (by decide)]
    have h1 : (List.replicate 256 'a').take 255 = List.replicate 255 'a' := by
      rw [List.take_replicate]
      norm_num
    rw [h1]
    rfl
  · intro heq
    have hlen := congrArg List.length heq
    rw [List.length_replicate, List.length_replicate] at hlen
    omega

/-- C9: on every successfully parsed passive-mode descriptor, the host
and ip substrings are copied into their bounded-capacity fields with
truncation to the capacity (255 characters for the 256-byte host buffer,
63 for the 64-byte ip buffer) and never beyond it; the truncation is not
reported as an error — parsing still succeeds and emits the endpoint.
(The g_strlcpy calls at gfal_sdn.c lines 146 and 154 cap the copy length
at the buffer size, so there is no out-of-bounds write; the embedding
renders that bounded copy as List.take.) -/
theorem dest_pasv_truncates_safely (h i p : List Char)
    (hh : h ≠ []) (hi : i ≠ []) (hp : p ≠ [])
    (hch : ∀ c ∈ h, isHostChar c = true) (hci : ∀ c ∈ i, isIpChar c = true)
    (hcp : ∀ c ∈ p, c.isDigit = true) :
    (sdn_dest_pasv (h ++ [':', '['] ++ i ++ [']', ':'] ++ p)).map endpoint_t.host
        = some (h.take 255)
      ∧ (sdn_dest_pasv (h ++ [':', '['] ++ i ++ [']', ':'] ++ p)).map endpoint_t.ip
        = some (i.take 63)
      ∧ (h.take 255).length ≤ 255 ∧ (i.take 63).length ≤ 63 := by
  rw [dest_pasv_exact_form h i p hh hi hp hch hci hcp]
  refine ⟨rfl, rfl, ?_, ?_⟩ <;> simp [List.length_take]

/-- Witness for C9 with a 300-character host and a 70-character ip,
both above their buffer capacities. -/
theorem dest_pasv_truncates_safely_witness :
    (sdn_dest_pasv (List.replicate 300 'a' ++ [':', '['] ++ List.replicate 70 'b'
        ++ [']', ':'] ++ ['7'])).map endpoint_t.host
        = some ((List.replicate 300 'a').take 255)
      ∧ (sdn_dest_pasv (List.replicate 300 'a' ++ [':', '['] ++ List.replicate 70 'b'
        ++ [']', ':'] ++ ['7'])).map endpoint_t.ip
        = some ((List.replicate 70 'b').take 63)
      ∧ ((List.replicate 300 'a').take 255).length ≤ 255
      ∧ ((List.replicate 70 'b').take 63).length ≤ 63 :=
  dest_pasv_truncates_safely (List.replicate 300 'a') (List.replicate 70 'b') ['7']
    (List.ne_nil_of_length_pos (by rw [List.length_replicate]; omega))
    (List.ne_nil_of_length_pos (by rw [List.length_replicate]; omega)) (by decide)
    (fun c hc => by rw [List.eq_of_mem_replicate hc]; decide)
    (fun c hc => by rw [List.eq_of_mem_replicate hc]; decide)
    (by decide)

lemma sdn_run_nil (q : List Char → Option Int) (pu : List Char → Option gfal2_uri)
    (d : sdn_t) :
    sdn_run q pu [] d = some { data := d, notifications := [], endpoints := [] } := rfl

lemma sdn_run_cons (q : List Char → Option Int) (pu : List Char → Option gfal2_uri)
    (e : gfalt_event_t) (es : List gfalt_event_t) (d : sdn_t)
    (o1 out : listener_out_t)
    (h1 : sdn_event_listener q pu e d = some o1)
    (h2 : sdn_run q pu es o1.data = some out) :
    sdn_run q pu (e :: es) d
      = some { data := out.data, notifications := o1.notifications ++ out.notifications,
               endpoints := o1.endpoints ++ out.endpoints } := by
  show (match sdn_event_listener q pu e d with
        | none => none
        | some o1 =>
          match sdn_run q pu es o1.data with
          | none => none
          | some o2 => some { data := o2.data,
                              notifications := o1.notifications ++ o2.notifications,
                              endpoints := o1.endpoints ++ o2.endpoints }
        : Option listener_out_t)
      = some { data := out.data, notifications := o1.notifications ++ out.notifications,
               endpoints := o1.endpoints ++ out.endpoints }
  rw [h1]
  show (match sdn_run q pu es o1.data with
        | none => none
        | some o2 => some { data := o2.data,
                            notifications := o1.notifications ++ o2.notifications,
                            endpoints := o1.endpoints ++ o2.endpoints }
        : Option listener_out_t)
      = some { data := out.data, notifications := o1.notifications ++ out.notifications,
               endpoints := o1.endpoints ++ out.endpoints }
  rw [h2]

lemma listener_exit_eq (q : List Char → Option Int) (pu : List Char → Option gfal2_uri)
    (desc : List Char) (d d2 : sdn_t) (n : notification_t)
    (h : sdn_notify_remote q pu d = some (d2, n)) :
    sdn_event_listener q pu { stage := .list_exit, description := desc } d
      = some { data := d2, notifications := [n], endpoints := [] } := by
  show (match sdn_notify_remote q pu d with
        | none => none
        | some (d2, n) => some { data := d2, notifications := [n], endpoints := [] }
        : Option listener_out_t)
      = some { data := d2, notifications := [n], endpoints := [] }
  rw [h]

/-- C2: delivering BatchEnter, BatchItem("fileA => fileB"),
BatchItem("fileC => fileD"), BatchExit to one dispatcher, with the
metadata query returning 100 for fileA and 200 for fileC and the URI
collaborator extracting hosts uA/uB from fileA/fileB, emits exactly one
notification, whose payload has pairCount = 2, totalSize = 300 and
source/destination hosts derived from the first pair's fileA/fileB. -/
theorem end_to_end_two_pair_batch
    (q : List Char → Option Int) (pu : List Char → Option gfal2_uri)
    (uA uB : gfal2_uri)
    (hqA : q "fileA".toList = some 100) (hqC : q "fileC".toList = some 200)
    (huA : pu "fileA".toList = some uA) (huB : pu "fileB".toList = some uB) :
    sdn_run q pu
        [ { stage := .list_enter, description := [] },
          { stage := .list_item, description := "fileA".toList ++ sep ++ "fileB".toList },
          { stage := .list_item, description := "fileC".toList ++ sep ++ "fileD".toList },
          { stage := .list_exit, description := [] } ]
        sdn_create_data
      = some { data := { pairs :=
                  [ { source := some "fileA".toList, destination := some "fileB".toList },
                    { source := some "fileC".toList, destination := some "fileD".toList } ],
                         total_size := 300 },
               notifications := [ { sourceHost := uA.host, destinationHost := uB.host,
                                    pairCount := 2, totalSize := 300 } ],
               endpoints := [] } := by
  have hp1 : sdn_create_pair ("fileA".toList ++ sep ++ "fileB".toList)
      = { source := some "fileA".toList, destination := some "fileB".toList } :=
    create_pair_separated _ _ (by decide) (by decide)
  have hp2 : sdn_create_pair ("fileC".toList ++ sep ++ "fileD".toList)
      = { source := some "fileC".toList, destination := some "fileD".toList } :=
    create_pair_separated _ _ (by decide) (by decide)
  have hagg : sdn_aggregate q
      { pairs := [ { source := some "fileA".toList, destination := some "fileB".toList },
                   { source := some "fileC".toList, destination := some "fileD".toList } ],
        total_size := 0 }
      = { pairs := [ { source := some "fileA".toList, destination := some "fileB".toList },
                     { source := some "fileC".toList, destination := some "fileD".toList } ],
          total_size := 300 } := by
    unfold sdn_aggregate
    rw [List.foldl_cons, List.foldl_cons, List.foldl_nil]
    simp only [sdn_add_size, Option.some_bind, hqA, hqC]
    norm_num
  have hnotify : sdn_notify_remote q pu
      { pairs := [ { source := some "fileA".toList, destination := some "fileB".toList },
                   { source := some "fileC".toList, destination := some "fileD".toList } ],
        total_size := 0 }
      = some ({ pairs := [ { source := some "fileA".toList, destination := some "fileB".toList },
                           { source := some "fileC".toList, destination := some "fileD".toList } ],
                total_size := 300 },
              { sourceHost := uA.host, destinationHost := uB.host,
                pairCount := 2, totalSize := 300 }) := by
    unfold sdn_notify_remote
    simp only [Option.some_bind, huA, huB, hagg]
    rfl
  have s1 : sdn_event_listener q pu { stage := .list_enter, description := [] } sdn_create_data
      = some { data := { pairs := [], total_size := 0 }, notifications := [], endpoints := [] } :=
    rfl
  have s2 : sdn_event_listener q pu
      { stage := .list_item, description := "fileA".toList ++ sep ++ "fileB".toList }
      { pairs := [], total_size := 0 }
      = some { data := { pairs :=
                  [ { source := some "fileA".toList, destination := some "fileB".toList } ],
                         total_size := 0 },
               notifications := [], endpoints := [] } := by
    rw [← hp1]; rfl
  have s3 : sdn_event_listener q pu
      { stage := .list_item, description := "fileC".toList ++ sep ++ "fileD".toList }
      { pairs := [ { source := some "fileA".toList, destination := some "fileB".toList } ],
        total_size := 0 }
      = some { data := { pairs :=
                  [ { source := some "fileA".toList, destination := some "fileB".toList },
                    { source := some "fileC".toList, destination := some "fileD".toList } ],
                         total_size := 0 },
               notifications := [], endpoints := [] } := by
    rw [← hp2]; rfl
  have s4 := listener_exit_eq q pu [] _ _ _ hnotify
  have r4 := sdn_run_cons q pu _ [] _ _ _ s4 (sdn_run_nil q pu _)
  have r3 := sdn_run_cons q pu _ _ _ _ _ s3 r4
  have r2 := sdn_run_cons q pu _ _ _ _ _ s2 r3
  have r1 := sdn_run_cons q pu _ _ _ _ _ s1 r2
  exact r1

/-- The concrete metadata-query collaborator of the C2 scenario. -/
def qC2 : List Char → Option Int := fun s =>
  if s = "fileA".toList then some 100
  else if s = "fileC".toList then some 200
  else none

/-- Witness for C2 with the concrete collaborators qC2 and uri_of. -/
theorem end_to_end_two_pair_batch_witness :
    sdn_run qC2 uri_of
        [ { stage := .list_enter, description := [] },
          { stage := .list_item, description := "fileA".toList ++ sep ++ "fileB".toList },
          { stage := .list_item, description := "fileC".toList ++ sep ++ "fileD".toList },
          { stage := .list_exit, description := [] } ]
        sdn_create_data
      = some { data := { pairs :=
                  [ { source := some "fileA".toList, destination := some "fileB".toList },
                    { source := some "fileC".toList, destination := some "fileD".toList } ],
                         total_size := 300 },
               notifications := [ { sourceHost := "fileA".toList,
                                    destinationHost := "fileB".toList,
                                    pairCount := 2, totalSize := 300 } ],
               endpoints := [] } :=
  end_to_end_two_pair_batch qC2 uri_of
    { host := "fileA".toList } { host := "fileB".toList }
    (by decide) (by decide) (by decide) (by decide)
